import Mathlib

/-!
Shallow embedding of the Cooler_Power hardware-control stack, together with
proofs checking the natural-language specification against the code.

Sources embedded (translated from the Python sources):
- `src/drivers/modbus_rtu.py` : CRC16 engine, `ModbusResponse.registers`,
  `ModbusRTU._transact` retry loop.
- `src/drivers/cl500w_driver.py` + `src/protocol/power_supply_base.py` :
  driver validation (`set_voltage` / `set_current`) and `get_status`.
- `src/pid_controller.py` : `PIDController.compute/reset`, `PIDAutoTuner`
  step-response auto-tuning state machine.
- `src/workers/hardware_worker.py` : the safety-stop / safety-recovery logic
  of the control loop.

Machine integers of the wire protocol are modelled as `Nat` (Python integers
are unbounded; masks `&&& 0xFF` appear exactly where the source has them).
Floating point quantities are modelled as exact rationals `ℚ`; wall-clock
time is passed in explicitly as a rational `now` argument.
-/

/-! ## CRC16 (`modbus_rtu.py`, class `CRC16`) -/

/-- One inner iteration of the table-builder loop of `CRC16._init_table`:
shift right by one and xor with 0xA001 when the shifted-out bit was set. -/
def CRC16.crcStep (crc : Nat) : Nat :=
  if crc &&& 1 = 1 then (crc >>> 1) ^^^ 0xA001 else crc >>> 1

/-- Entry `i` of the 256-entry lookup table built by `CRC16._init_table`:
eight iterations of `crcStep` starting from `i`. -/
def CRC16.tableEntry (i : Nat) : Nat :=
  CRC16.crcStep^[8] i

/-- `CRC16.calculate`: table-driven CRC-16 with seed 0xFFFF over a byte list. -/
def CRC16.calculate (data : List Nat) : Nat :=
  data.foldl (fun crc b => (crc >>> 8) ^^^ CRC16.tableEntry ((crc ^^^ b) &&& 0xFF)) 0xFFFF

/-- `CRC16.append`: append the checksum low byte first (`struct.pack('<H', crc)`). -/
def CRC16.append (data : List Nat) : List Nat :=
  data ++ [CRC16.calculate data % 256, CRC16.calculate data / 256 % 256]

/-- `CRC16.verify`: recompute the checksum over all but the last two bytes and
compare with the embedded little-endian value; frames shorter than 3 bytes
are rejected. -/
def CRC16.verify (data : List Nat) : Bool :=
  if data.length < 3 then false
  else
    CRC16.calculate (data.take (data.length - 2))
      == data.getD (data.length - 2) 0 + 256 * data.getD (data.length - 1) 0

/-! ## Modbus responses (`modbus_rtu.py`, `ModbusResponse`) -/

/-- `ModbusResponse` dataclass. -/
structure ModbusResponse where
  slaveAddress : Nat
  functionCode : Nat
  data : List Nat
  isError : Bool := false
  errorCode : Nat := 0
  deriving Repr, DecidableEq

/-- The loop body of the `registers` property: scan the payload two bytes at a
time, emitting the big-endian 16-bit value of each complete pair; a trailing
odd byte (for which `i + 1 < len(data)` fails) is skipped. -/
def registersOf : List Nat → List Nat
  | b0 :: b1 :: rest => (256 * b0 + b1) :: registersOf rest
  | _ => []

/-- `ModbusResponse.registers`: payload reinterpreted as big-endian 16-bit
unsigned integers. -/
def ModbusResponse.registers (r : ModbusResponse) : List Nat :=
  registersOf r.data

/-! ## Transport retry loop (`modbus_rtu.py`, `ModbusRTU._transact`)

The physical link is abstracted by the outcome each attempt observes:
either `_send_frame` fails, or `_receive_frame` returns no frame, or a frame
(of raw bytes) is received. -/

/-- What the simulated link does on one attempt of the retry loop. -/
inductive LinkOutcome where
  | sendFail
  | noResponse
  | recv (frame : List Nat)
  deriving Repr, DecidableEq

/-- Observable trace of one `_transact` call: the consecutive-failure counter
after the call, the frames actually written to the port, and the number of
forced port resets (`_reset_serial_port`, modelled as always succeeding and
therefore zeroing the counter). -/
structure TransactTrace where
  failures : Nat
  writes : List (List Nat)
  resets : Nat
  deriving Repr, DecidableEq

/-- The attempt loop of `ModbusRTU._transact`, one `LinkOutcome` per attempt.
`frame` is the sealed request written on every attempt whose send succeeds. -/
def ModbusRTU.transactAttempts (frame : List Nat) :
    List LinkOutcome → Nat → List (List Nat) → Nat → TransactTrace × Option ModbusResponse
  | [], f, w, r => (⟨f, w, r⟩, none)
  | .sendFail :: rest, f, w, r =>
      ModbusRTU.transactAttempts frame rest (f + 1) w r
  | .noResponse :: rest, f, w, r =>
      if f + 1 ≥ 5 then ModbusRTU.transactAttempts frame rest 0 (w ++ [frame]) (r + 1)
      else ModbusRTU.transactAttempts frame rest (f + 1) (w ++ [frame]) r
  | .recv resp :: rest, f, w, r =>
      if CRC16.verify resp = false then
        if f + 1 ≥ 5 then ModbusRTU.transactAttempts frame rest 0 (w ++ [frame]) (r + 1)
        else ModbusRTU.transactAttempts frame rest (f + 1) (w ++ [frame]) r
      else if resp.length < 3 then
        ModbusRTU.transactAttempts frame rest f (w ++ [frame]) r
      else if resp.getD 1 0 &&& 0x80 ≠ 0 then
        (⟨0, w ++ [frame], r⟩,
         some ⟨resp.getD 0 0, resp.getD 1 0 &&& 0x7F, [], true, resp.getD 2 0⟩)
      else
        (⟨0, w ++ [frame], r⟩,
         some ⟨resp.getD 0 0, resp.getD 1 0, (resp.drop 2).dropLast.dropLast, false, 0⟩)

/-- `ModbusRTU._transact`: seal the request with CRC and run up to
`retryCount` attempts, starting from consecutive-failure counter `f0`. -/
def ModbusRTU.transact (request : List Nat) (retryCount : Nat)
    (link : Nat → LinkOutcome) (f0 : Nat) : TransactTrace × Option ModbusResponse :=
  ModbusRTU.transactAttempts (CRC16.append request) ((List.range retryCount).map link) f0 [] 0

/-! ## Device driver (`cl500w_driver.py` with `power_supply_base.py`) -/

/-- `PowerMode` enum. -/
inductive PowerMode where
  | CV
  | CC
  | UNKNOWN
  deriving Repr, DecidableEq

/-- `ProtectionStatus` enum. -/
inductive ProtectionStatus where
  | NORMAL
  | OVP
  | OCP
  | OTP
  | SCP
  deriving Repr, DecidableEq

/-- `PowerStatus` dataclass; `powerReal` is set by `__post_init__` to
`voltage_real * current_real` of the construction-time values (0.0). -/
structure PowerStatus where
  voltageReal : ℚ := 0
  currentReal : ℚ := 0
  powerReal : ℚ := 0
  voltageSet : ℚ := 0
  currentSet : ℚ := 0
  isOutputOn : Bool := false
  mode : PowerMode := .UNKNOWN
  protection : ProtectionStatus := .NORMAL
  temperature : ℚ := 0
  isConnected : Bool := false
  errorMessage : String := ""
  deriving Repr, DecidableEq

/-- `PowerSpecification` dataclass (numeric fields). -/
structure PowerSpecification where
  voltageMin : ℚ
  voltageMax : ℚ
  voltageResolution : ℚ
  currentMin : ℚ
  currentMax : ℚ
  currentResolution : ℚ
  powerMax : ℚ
  deriving Repr, DecidableEq

/-- The `PowerSpecification` the CL-500W driver declares in `__init__`. -/
def CL500WDriver.spec : PowerSpecification :=
  ⟨0, 60, 0.001, 0, 20, 0.001, 500⟩

/-- `PowerSupplyBase.validate_voltage`. -/
def PowerSupplyBase.validateVoltage (spec : PowerSpecification) (voltage : ℚ) : Bool :=
  decide (spec.voltageMin ≤ voltage ∧ voltage ≤ spec.voltageMax)

/-- `PowerSupplyBase.validate_current`. -/
def PowerSupplyBase.validateCurrent (spec : PowerSpecification) (current : ℚ) : Bool :=
  decide (spec.currentMin ≤ current ∧ current ≤ spec.currentMax)

/-- Python `int(...)` applied to a rational: truncation toward zero. -/
def intTrunc (q : ℚ) : ℤ :=
  if 0 ≤ q then ⌊q⌋ else ⌈q⌉

/-- A bus operation the driver performs through its `ModbusRTU` instance. -/
inductive BusOp where
  | writeReg (address : Nat) (value : ℤ)
  | readReg (start : Nat) (count : Nat)
  deriving Repr, DecidableEq

/-- An error reported through `PowerSupplyBase._notify_error` (registered
error callbacks); the payloads mirror the formatted Python messages. -/
inductive DriverErr where
  | notConnected
  | commTimeout
  | modbusError (code : Nat)
  | writeFailed
  | voltageOutOfRange (voltage : ℚ)
  | currentOutOfRange (current : ℚ)
  deriving Repr, DecidableEq

/-- Outcome the bus oracle assigns to one register read: transaction failure
(`response is None`), a Modbus error response, or a register list. -/
inductive ReadOutcome where
  | fail
  | err (code : Nat)
  | ok (regs : List Nat)
  deriving Repr, DecidableEq

/-- Environment a driver call runs in: connection flag plus the outcome of
each bus transaction the hardware would produce. -/
structure BusEnv where
  connected : Bool
  readResult : Nat → Nat → ReadOutcome
  writeResult : Nat → ℤ → Bool

/-- Result of a driver call: its return value plus the bus operations it
performed and the error notifications it issued. -/
structure DriverCall (α : Type) where
  ret : α
  ops : List BusOp
  errs : List DriverErr

/-- `CL500WDriver._read_registers`. -/
def CL500WDriver.readRegisters (env : BusEnv) (start count : Nat) :
    DriverCall (Option (List Nat)) :=
  if env.connected = false then ⟨none, [], [.notConnected]⟩
  else
    match env.readResult start count with
    | .fail => ⟨none, [.readReg start count], [.commTimeout]⟩
    | .err code => ⟨none, [.readReg start count], [.modbusError code]⟩
    | .ok regs => ⟨some regs, [.readReg start count], []⟩

/-- `CL500WDriver._write_register`. -/
def CL500WDriver.writeRegister (env : BusEnv) (address : Nat) (value : ℤ) :
    DriverCall Bool :=
  if env.connected = false then ⟨false, [], [.notConnected]⟩
  else
    let ok := env.writeResult address value
    ⟨ok, [.writeReg address value], if ok then [] else [.writeFailed]⟩

/-- `CL500WDriver.set_voltage`: validate against the declared specification
range, then write register 1280 in millivolts. -/
def CL500WDriver.setVoltage (env : BusEnv) (voltage : ℚ) : DriverCall Bool :=
  if PowerSupplyBase.validateVoltage CL500WDriver.spec voltage = false then
    ⟨false, [], [.voltageOutOfRange voltage]⟩
  else
    CL500WDriver.writeRegister env 1280 (intTrunc (voltage * 1000))

/-- `CL500WDriver.set_current`: validate against the declared specification
range, then write register 1281 in milliamps. -/
def CL500WDriver.setCurrent (env : BusEnv) (current : ℚ) : DriverCall Bool :=
  if PowerSupplyBase.validateCurrent CL500WDriver.spec current = false then
    ⟨false, [], [.currentOutOfRange current]⟩
  else
    CL500WDriver.writeRegister env 1281 (intTrunc (current * 1000))

/-- `CL500WDriver.get_status`: one batched 5-register read of the real-time
block, then three single-register reads; each read that yields registers
populates its fields, and none of the reads is skipped when an earlier one
fails.  The `except` branch that would set `error_message` is unreachable in
this model because no embedded operation raises. -/
def CL500WDriver.getStatus (env : BusEnv) : DriverCall PowerStatus :=
  if env.connected = false then ⟨{ isConnected := false, errorMessage := "未连接" }, [], []⟩
  else
    let s0 : PowerStatus := { isConnected := true }
    let c1 := CL500WDriver.readRegisters env 1024 5
    let s1 :=
      match c1.ret with
      | some regs =>
        if 5 ≤ regs.length then
          { s0 with
            voltageReal := (regs.getD 0 0 : ℚ) / 1000,
            currentReal := (regs.getD 1 0 : ℚ) / 1000,
            mode := if regs.getD 2 0 ≠ 0 then PowerMode.CC else PowerMode.CV,
            temperature := (regs.getD 3 0 : ℚ),
            protection := if regs.getD 4 0 ≠ 0 then ProtectionStatus.OTP else s0.protection }
        else s0
      | none => s0
    let c2 := CL500WDriver.readRegisters env 1282 1
    let s2 :=
      match c2.ret with
      | some regs =>
        if 1 ≤ regs.length then { s1 with isOutputOn := regs.getD 0 0 ≠ 0 } else s1
      | none => s1
    let c3 := CL500WDriver.readRegisters env 1280 1
    let s3 :=
      match c3.ret with
      | some regs =>
        if 1 ≤ regs.length then { s2 with voltageSet := (regs.getD 0 0 : ℚ) / 1000 } else s2
      | none => s2
    let c4 := CL500WDriver.readRegisters env 1281 1
    let s4 :=
      match c4.ret with
      | some regs =>
        if 1 ≤ regs.length then { s3 with currentSet := (regs.getD 0 0 : ℚ) / 1000 } else s3
      | none => s3
    ⟨{ s4 with isConnected := true },
     c1.ops ++ c2.ops ++ c3.ops ++ c4.ops,
     c1.errs ++ c2.errs ++ c3.errs ++ c4.errs⟩

/-! ## PID controller (`pid_controller.py`, `PIDController`)

Wall-clock time is passed to `compute` as an explicit rational `now`;
`time.time()` monotonicity is not assumed (the source already guards with
`max(0.01, now - last)`). -/

/-- `PIDController` instance state (constructor arguments plus the runtime
fields set in `__init__`). -/
structure PIDController where
  kp : ℚ
  ki : ℚ
  kd : ℚ
  outputMin : ℚ
  outputMax : ℚ
  integral : ℚ
  lastError : ℚ
  lastDerivative : ℚ
  output : ℚ
  lastTime : Option ℚ
  reverse : Bool
  derivativeFilter : ℚ
  outputRateLimit : ℚ
  deriving Repr, DecidableEq

/-- `PIDController.__init__(kp, ki, kd, output_min, output_max)`. -/
def PIDController.init (kp ki kd outputMin outputMax : ℚ) : PIDController :=
  { kp := kp, ki := ki, kd := kd, outputMin := outputMin, outputMax := outputMax,
    integral := 0, lastError := 0, lastDerivative := 0, output := 0, lastTime := none,
    reverse := false, derivativeFilter := 0.3, outputRateLimit := 2.0 }

/-- The default-argument construction `PIDController()`. -/
def PIDController.default : PIDController :=
  PIDController.init 1.0 0.05 0.5 0.0 7.0

/-- `PIDController.reset`. -/
def PIDController.reset (c : PIDController) : PIDController :=
  { c with integral := 0, lastError := 0, lastDerivative := 0, output := 0, lastTime := none }

/-- `PIDController.compute(setpoint, measured)` at wall-clock time `now`;
returns the output and the updated controller. -/
def PIDController.compute (c : PIDController) (setpoint measured now : ℚ) :
    ℚ × PIDController :=
  let dt := match c.lastTime with
    | none => 1
    | some t => max 0.01 (now - t)
  let error := if c.reverse then setpoint - measured else measured - setpoint
  let pTerm := c.kp * error
  let integral1 := c.integral + error * dt
  let iLimit := c.outputMax / max c.ki 0.001
  let integral2 := max (-iLimit) (min iLimit integral1)
  let iTerm := c.ki * integral2
  let rawDerivative := if dt > 0 then (error - c.lastError) / dt else 0
  let alpha := c.derivativeFilter
  let filteredD := alpha * rawDerivative + (1 - alpha) * c.lastDerivative
  let dTerm := c.kd * filteredD
  let rawOutput := pTerm + iTerm + dTerm
  let newOutput := max c.outputMin (min c.outputMax rawOutput)
  let integral3 :=
    if |newOutput - rawOutput| > 0.001 ∧ |c.ki| > 0.0001 then
      integral2 - (rawOutput - newOutput) / c.ki * 0.5
    else integral2
  let newOutput2 :=
    if c.outputRateLimit > 0 ∧ dt > 0 then
      let maxChange := c.outputRateLimit * dt
      let change := newOutput - c.output
      if |change| > maxChange then
        c.output + maxChange * (if change > 0 then 1 else -1)
      else newOutput
    else newOutput
  (newOutput2,
   { c with integral := integral3, lastError := error, lastDerivative := filteredD,
            output := newOutput2, lastTime := some now })

/-- Run a sequence of `compute` calls (setpoint, measured, now per tick),
threading the controller state. -/
def PIDController.run (c : PIDController) : List (ℚ × ℚ × ℚ) → PIDController
  | [] => c
  | (sp, m, now) :: rest => PIDController.run (c.compute sp m now).2 rest

/-- The outputs returned along a sequence of `compute` calls. -/
def PIDController.outputsFrom (c : PIDController) : List (ℚ × ℚ × ℚ) → List ℚ
  | [] => []
  | (sp, m, now) :: rest =>
      (c.compute sp m now).1 :: PIDController.outputsFrom (c.compute sp m now).2 rest

/-! ## Auto-tuner (`pid_controller.py`, `PIDAutoTuner`) -/

/-- The `PIDAutoTuner.State` constants. -/
inductive TunerState where
  | idle
  | stepResponse
  | analyzing
  | done
  | failed
  deriving Repr, DecidableEq

/-- Status messages (`self.message`), modelled as tags carrying the numbers
that the Python f-strings would format. -/
inductive TunerMsg where
  | empty
  | waitStable
  | settling (elapsed settleWait : ℚ)
  | stepApplied (initial output : ℚ)
  | collecting (elapsed change : ℚ) (count : Nat)
  | timeout (maxTime : ℚ)
  | tuneDone (K L T kp ki kd : ℚ)
  | fallbackDone (deltaT elapsedStep kp ki kd : ℚ)
  | fallbackDefault
  deriving Repr, DecidableEq

/-- `PIDAutoTuner` instance state. -/
structure PIDAutoTuner where
  setpoint : ℚ
  outputHigh : ℚ
  outputLow : ℚ
  maxTime : ℚ
  minChange : ℚ
  heating : Bool
  state : TunerState
  startTime : ℚ
  currentOutput : ℚ
  initialTemp : Option ℚ
  timeData : List ℚ
  tempData : List ℚ
  stepStartTime : ℚ
  stepApplied : Bool
  settleWait : ℚ
  kp : ℚ
  ki : ℚ
  kd : ℚ
  deadTime : ℚ
  timeConstant : ℚ
  message : TunerMsg
  deriving Repr, DecidableEq

/-- `PIDAutoTuner.__init__`. -/
def PIDAutoTuner.init (setpoint outputHigh outputLow maxTime minChange : ℚ)
    (heating : Bool) : PIDAutoTuner :=
  { setpoint := setpoint, outputHigh := outputHigh, outputLow := outputLow,
    maxTime := maxTime, minChange := minChange, heating := heating,
    state := .idle, startTime := 0, currentOutput := 0, initialTemp := none,
    timeData := [], tempData := [], stepStartTime := 0, stepApplied := false,
    settleWait := 5.0, kp := 0, ki := 0, kd := 0, deadTime := 0,
    timeConstant := 0, message := .empty }

/-- `PIDAutoTuner.start()` at wall-clock time `now`. -/
def PIDAutoTuner.start (st : PIDAutoTuner) (now : ℚ) : PIDAutoTuner :=
  { st with
    state := .stepResponse, startTime := now, currentOutput := 0,
    initialTemp := none, timeData := [], tempData := [], stepApplied := false,
    stepStartTime := 0, message := .waitStable }

/-- The scan loop of `_analyze_response` locating the first sample crossing
`target` (direction depends on `heating`), returning its recorded time. -/
def firstCrossing (heating : Bool) (target : ℚ) : List ℚ → List ℚ → Option ℚ
  | t :: ts, temp :: temps =>
      if (if heating then target ≤ temp else temp ≤ target) then some t
      else firstCrossing heating target ts temps
  | _, _ => none

/-- `PIDAutoTuner._analyze_response`: two-point identification followed by
Cohen-Coon gains with static clamps.  Early `return`s leave the state
unchanged; the `except` branch is unreachable in this model. -/
def PIDAutoTuner.analyzeResponse (st : PIDAutoTuner) : PIDAutoTuner :=
  if st.timeData.length < 10 ∨ st.initialTemp = none then st
  else
    let T0 := st.initialTemp.getD 0
    let Tfinal := st.tempData.getD (st.tempData.length - 1) 0
    let deltaT := if st.heating then Tfinal - T0 else T0 - Tfinal
    if deltaT < 0.5 then st
    else
      let target283 := if st.heating then T0 + deltaT * 0.283 else T0 - deltaT * 0.283
      let target632 := if st.heating then T0 + deltaT * 0.632 else T0 - deltaT * 0.632
      let t283 := firstCrossing st.heating target283 st.timeData st.tempData
      let t632 := firstCrossing st.heating target632 st.timeData st.tempData
      let LT :=
        match t283, t632 with
        | some a, some b =>
            let T := max 5.0 (1.5 * (b - a))
            some (max 1.0 (b - T), T)
        | some a, none => some (max 1.0 (a * 0.5), max 5.0 (a * 2.5))
        | none, _ => none
      match LT with
      | none => st
      | some (L, T) =>
        let deltaU := st.outputHigh - st.outputLow
        let K := deltaT / max deltaU 0.01
        let r0 := L / T
        let r := if r0 < 0.01 then 0.01 else r0
        let kp0 := (1 / K) * (T / L) * (0.9 + r / 12)
        let ti := L * (30 + 3 * r) / (9 + 20 * r)
        let td := L * 4 / (11 + 2 * r)
        let ki0 := if ti > 0 then kp0 / ti else 0
        let kd0 := kp0 * td
        let kp1 := max 0.1 (min 15 kp0)
        let ki1 := max 0.001 (min 1 ki0)
        let kd1 := max 0 (min 15 kd0)
        { st with
          deadTime := L, timeConstant := T, kp := kp1, ki := ki1, kd := kd1,
          state := .done, message := .tuneDone K L T kp1 ki1 kd1 }

/-- `PIDAutoTuner._use_fallback_params(last_temp)`: empirically derived gains
when enough data was seen, conservative defaults otherwise; both branches end
in state `done`. -/
def PIDAutoTuner.useFallbackParams (st : PIDAutoTuner) (lastTemp : ℚ) : PIDAutoTuner :=
  let defaults : PIDAutoTuner :=
    { st with kp := 1.5, ki := 0.02, kd := 2.0, state := .done, message := .fallbackDefault }
  match st.initialTemp with
  | some t0 =>
    if st.timeData.length > 5 then
      let deltaT := |t0 - lastTemp|
      let elapsedStep :=
        if st.timeData ≠ [] then st.timeData.getD (st.timeData.length - 1) 0 else 60
      let deltaU := st.outputHigh
      if deltaT > 0.5 ∧ elapsedStep > 10 then
        let K := deltaT / max deltaU 0.01
        let Test := elapsedStep * 0.8
        let Lest := elapsedStep * 0.1
        let kp1 := max 0.3 (min 5.0 (0.9 * Test / (K * Lest)))
        let ki1 := max 0.005 (min 0.5 (kp1 / (Test * 1.2)))
        let kd1 := max 0.0 (min 5.0 (kp1 * Lest * 0.5))
        { st with
          kp := kp1, ki := ki1, kd := kd1, state := .done,
          message := .fallbackDone deltaT elapsedStep kp1 ki1 kd1 }
      else defaults
    else defaults
  | none => defaults

/-- `PIDAutoTuner.step(measured)` at wall-clock time `now`; returns the
current to output and the updated tuner. -/
def PIDAutoTuner.step (st : PIDAutoTuner) (measured now : ℚ) : ℚ × PIDAutoTuner :=
  let elapsed := now - st.startTime
  if elapsed > st.maxTime then
    if st.timeData.length > 20 then
      let st1 := st.analyzeResponse
      if st1.state = .done then (0, st1)
      else (0, PIDAutoTuner.useFallbackParams
                 { st1 with state := .failed, message := .timeout st.maxTime } measured)
    else (0, PIDAutoTuner.useFallbackParams
               { st with state := .failed, message := .timeout st.maxTime } measured)
  else
    if st.state = .stepResponse then
      if st.stepApplied = false then
        if elapsed < st.settleWait then
          let st1 := { st with currentOutput := st.outputLow,
                               message := .settling elapsed st.settleWait }
          (st1.currentOutput, st1)
        else
          let st1 := { st with initialTemp := some measured, stepApplied := true,
                               stepStartTime := now, currentOutput := st.outputHigh,
                               message := .stepApplied measured st.outputHigh }
          (st1.currentOutput, st1)
      else
        let t := now - st.stepStartTime
        let tempChange := |st.initialTemp.getD 0 - measured|
        let st1 := { st with timeData := st.timeData ++ [t],
                             tempData := st.tempData ++ [measured],
                             currentOutput := st.outputHigh,
                             message := .collecting elapsed tempChange
                                          (st.timeData.length + 1) }
        if tempChange ≥ st.minChange ∧ st1.timeData.length ≥ 30 then
          let st2 := st1.analyzeResponse
          if st2.state = .done then (0, st2) else (st2.currentOutput, st2)
        else if tempChange ≥ st.minChange * 0.6 ∧ st1.timeData.length ≥ 60 then
          let st2 := st1.analyzeResponse
          if st2.state = .done then (0, st2) else (st2.currentOutput, st2)
        else (st1.currentOutput, st1)
    else (0, st)

/-! ## Orchestrator safety logic (`hardware_worker.py`, `HardwareWorker`)

The worker state keeps the fields that the control tick, safety stop and
safety-recovery check read or write.  `lastSetCurrent` is the current most
recently commanded through `power.set_current`; `restartPending` records a
`QTimer.singleShot` scheduling of `_auto_restart_tune`. -/

/-- The slice of `HardwareWorker` state relevant to control and safety. -/
structure HardwareWorker where
  pidEnabled : Bool
  autoTuning : Bool
  safetyTriggered : Bool
  safetyStopCount : Nat
  controlTimerRunning : Bool
  recoveryTimerRunning : Bool
  powerConnected : Bool
  lastSetCurrent : ℚ
  targetTemp : ℚ
  safetyTemp : ℚ
  controlMode : Nat
  kp : ℚ
  ki : ℚ
  kd : ℚ
  pid : PIDController
  tuner : Option PIDAutoTuner
  restartPending : Bool
  deriving Repr, DecidableEq

/-- `power.set_current(x)` as issued by the worker (only reaches the bus when
the power link is connected; the guard `if self.power and
self.power.is_connected` precedes every call). -/
def HardwareWorker.sendCurrent (w : HardwareWorker) (x : ℚ) : HardwareWorker :=
  if w.powerConnected then { w with lastSetCurrent := x } else w

/-- `HardwareWorker._safety_stop`. -/
def HardwareWorker.safetyStop (w : HardwareWorker) : HardwareWorker :=
  let w1 := { w with
    safetyTriggered := true,
    safetyStopCount := w.safetyStopCount + 1,
    pidEnabled := false,
    autoTuning := false,
    controlTimerRunning := false }
  let w2 := w1.sendCurrent 0
  { w2 with recoveryTimerRunning := true }

/-- `HardwareWorker._on_auto_tune_done`. -/
def HardwareWorker.onAutoTuneDone (w : HardwareWorker) (t : PIDAutoTuner) : HardwareWorker :=
  let w1 := { w with autoTuning := false, pidEnabled := false, controlTimerRunning := false }
  let w2 := w1.sendCurrent 0
  { w2 with kp := t.kp, ki := t.ki, kd := t.kd }

/-- `HardwareWorker._on_auto_tune_failed`. -/
def HardwareWorker.onAutoTuneFailed (w : HardwareWorker) (t : PIDAutoTuner) : HardwareWorker :=
  let w1 := { w with autoTuning := false, pidEnabled := false, controlTimerRunning := false }
  let w2 := w1.sendCurrent 0
  if t.state = .done then w2.onAutoTuneDone t else w2

/-- `HardwareWorker._control_loop` at wall-clock time `now`, with `measured`
the fused temperature reading this tick observes (`None` when no sensor
offers a value). -/
def HardwareWorker.controlLoop (w : HardwareWorker) (measured : Option ℚ) (now : ℚ) :
    HardwareWorker :=
  if w.pidEnabled = false then w
  else
    match measured with
    | none => w
    | some m =>
      if w.safetyTemp < m then w.safetyStop
      else
        let w1 := { w with pid := { w.pid with reverse := w.controlMode == 1 } }
        match w1.autoTuning, w1.tuner with
        | true, some t =>
          let (output, t') := t.step m now
          let w2 := { w1 with tuner := some t' }
          if t'.state = .done then w2.onAutoTuneDone t'
          else if t'.state = .failed then w2.onAutoTuneFailed t'
          else w2.sendCurrent output
        | _, _ =>
          let (output, pid') := w1.pid.compute w1.targetTemp m now
          ({ w1 with pid := pid' }).sendCurrent output

/-- `HardwareWorker._check_safety_recovery`: runs on the 2 s recovery timer;
restarts (schedules `_auto_restart_tune`) only when the fused temperature has
dropped strictly below `safety_temp - 2.0`. -/
def HardwareWorker.checkSafetyRecovery (w : HardwareWorker) (measured : Option ℚ) :
    HardwareWorker :=
  match measured with
  | none => w
  | some m =>
    if m < w.safetyTemp - 2 then
      { w with recoveryTimerRunning := false, safetyTriggered := false, restartPending := true }
    else w

/-! ## Concrete fixtures used by counterexamples and witnesses -/

/-- A bus environment whose transactions all succeed trivially. -/
def BusEnv.trivialOk : BusEnv :=
  { connected := true, readResult := fun _ _ => .ok [1], writeResult := fun _ _ => true }

/-- A bus environment where the batched real-time read (start 1024) fails and
every other read succeeds. -/
def BusEnv.firstReadFails : BusEnv :=
  { connected := true,
    readResult := fun start _ => if start = 1024 then .fail else .ok [1],
    writeResult := fun _ _ => true }

/-- An auto-tuner session that has applied its step and collected exactly 20
samples (times 1..20, temperatures falling linearly from 19.65 °C to
13.0 °C from an initial 20 °C), used to probe the timeout path. -/
def tuner20 : PIDAutoTuner :=
  { PIDAutoTuner.init 10 7 0 300 2 false with
    state := .stepResponse, startTime := 0, stepApplied := true, stepStartTime := 0,
    initialTemp := some 20,
    timeData := [1, 2, 3, 4, 5, 6, 7, 8, 9, 10, 11, 12, 13, 14, 15, 16, 17, 18, 19, 20],
    tempData := [19.65, 19.3, 18.95, 18.6, 18.25, 17.9, 17.55, 17.2, 16.85, 16.5,
                 16.15, 15.8, 15.45, 15.1, 14.75, 14.4, 14.05, 13.7, 13.35, 13] }

/-- A worker state running normal PID control, used by the safety claims. -/
def workerRunning : HardwareWorker :=
  { pidEnabled := true, autoTuning := false, safetyTriggered := false,
    safetyStopCount := 0, controlTimerRunning := true, recoveryTimerRunning := false,
    powerConnected := true, lastSetCurrent := 3, targetTemp := 15, safetyTemp := 30,
    controlMode := 0, kp := 1, ki := 0.05, kd := 0.5,
    pid := PIDController.default, tuner := none, restartPending := false }

/-! # Theorems -/

/-! ### CRC16 lemmas -/

/-- Any xor of two 16-bit values is a 16-bit value. -/
theorem xor_lt_65536 {a b : Nat} (ha : a < 65536) (hb : b < 65536) : a ^^^ b < 65536 := by
  have h : (65536 : Nat) = 2 ^ 16 := by norm_num
  rw [h] at ha hb ⊢
  exact Nat.bitwise_lt ha hb

/-- The table-builder step keeps values below 2^16. -/
theorem CRC16.crcStep_lt {c : Nat} (h : c < 65536) : CRC16.crcStep c < 65536 := by
  have hs : c >>> 1 < 65536 := by
    rw [Nat.shiftRight_eq_div_pow]
    exact lt_of_le_of_lt (Nat.div_le_self c (2 ^ 1)) h
  unfold CRC16.crcStep
  split
  · exact xor_lt_65536 hs (by norm_num)
  · exact hs

/-- Iterating the table-builder step keeps values below 2^16. -/
theorem CRC16.crcStep_iterate_lt : ∀ (n : Nat) {c : Nat}, c < 65536 →
    CRC16.crcStep^[n] c < 65536
  | 0, _, h => h
  | n + 1, c, h => by
      rw [Function.iterate_succ_apply]
      exact CRC16.crcStep_iterate_lt n (CRC16.crcStep_lt h)

/-- Every lookup-table entry is a 16-bit value. -/
theorem CRC16.tableEntry_lt {i : Nat} (h : i < 65536) : CRC16.tableEntry i < 65536 :=
  CRC16.crcStep_iterate_lt 8 h

/-- `CRC16.calculate` always produces a 16-bit value. -/
theorem CRC16.calculate_lt (data : List Nat) : CRC16.calculate data < 65536 := by
  suffices h : ∀ (l : List Nat) (c : Nat), c < 65536 →
      List.foldl (fun crc b => (crc >>> 8) ^^^ CRC16.tableEntry ((crc ^^^ b) &&& 0xFF)) c l
        < 65536 by
    exact h data 0xFFFF (by norm_num)
  intro l
  induction l with
  | nil => intro c hc; simpa using hc
  | cons b rest ih =>
    intro c hc
    rw [List.foldl_cons]
    apply ih
    apply xor_lt_65536
    · rw [Nat.shiftRight_eq_div_pow]
      exact lt_of_le_of_lt (Nat.div_le_self c (2 ^ 8)) hc
    · exact CRC16.tableEntry_lt (lt_of_le_of_lt (Nat.and_le_right) (by norm_num))

/-- Round-trip core: sealing a nonempty byte list yields a frame `verify`
accepts. -/
theorem CRC16.verify_append_of_ne_nil (s : List Nat) (hs : s ≠ []) :
    CRC16.verify (CRC16.append s) = true := by
  have hpos : 0 < s.length := List.length_pos.mpr hs
  have hc := CRC16.calculate_lt s
  unfold CRC16.verify CRC16.append
  rw [List.length_append]
  simp only [List.length_cons, List.length_nil]
  rw [if_neg (by omega)]
  have hs2 : s.length + 2 - 2 = s.length := by omega
  rw [hs2]
  rw [List.take_left]
  rw [List.getD_append_right _ _ _ _ (by omega)]
  rw [List.getD_append_right _ _ _ _ (by omega)]
  have h2 : s.length + (0 + 1 + 1) - 1 - s.length = 1 := by omega
  have h1 : s.length - s.length = 0 := by omega
  rw [h2, h1]
  simp only [List.getD_cons_zero, List.getD_cons_succ]
  have hdiv : CRC16.calculate s / 256 % 256 = CRC16.calculate s / 256 :=
    Nat.mod_eq_of_lt (by omega)
  rw [hdiv, Nat.mod_add_div (CRC16.calculate s) 256]
  exact beq_self_eq_true _

/-! ### C3 : CRC round-trip -/

/-- C3, counterexample: the claim "for every byte sequence, including the
empty sequence, `verify(append(s))` is true" fails at `s = []`: sealing the
empty sequence yields the 2-byte frame `[0xFF, 0xFF]`, which `verify`
rejects as shorter than 3 bytes. -/
theorem crc_roundtrip_empty_counterexample :
    CRC16.verify (CRC16.append ([] : List Nat)) = false := by decide

/-- C3, amended: for every NONEMPTY byte sequence `s`,
`CRC16.verify (CRC16.append s)` is true; for the empty sequence the sealed
frame has only 2 bytes and `verify` returns false. -/
theorem crc_roundtrip_amended :
    (∀ s : List Nat, s ≠ [] → CRC16.verify (CRC16.append s) = true)
      ∧ CRC16.verify (CRC16.append ([] : List Nat)) = false :=
  ⟨CRC16.verify_append_of_ne_nil, by decide⟩

/-- C3, witness: the amended round-trip at the standard test frame
`[0x01, 0x03, 0x00, 0x00, 0x00, 0x01]`. -/
theorem crc_roundtrip_amended_witness :
    CRC16.verify (CRC16.append [1, 3, 0, 0, 0, 1]) = true :=
  crc_roundtrip_amended.1 [1, 3, 0, 0, 0, 1] (by decide)

/-! ### C10 : register decoding -/

/-- `registersOf` produces one entry per complete byte pair. -/
theorem registersOf_length : ∀ l : List Nat, (registersOf l).length = l.length / 2
  | [] => by simp [registersOf]
  | [_] => by simp [registersOf]
  | _ :: _ :: rest => by
      simp only [registersOf, List.length_cons, registersOf_length rest]
      omega

/-- Each `registersOf` entry is the big-endian pair at twice its index. -/
theorem registersOf_getD : ∀ (l : List Nat) (i : Nat), i < l.length / 2 →
    (registersOf l).getD i 0 = 256 * l.getD (2 * i) 0 + l.getD (2 * i + 1) 0
  | [], i, h => by
      exfalso
      simp only [List.length_nil] at h
      omega
  | [_], i, h => by
      exfalso
      simp only [List.length_cons, List.length_nil] at h
      omega
  | b0 :: b1 :: rest, 0, _ => by simp [registersOf]
  | b0 :: b1 :: rest, i + 1, h => by
      have hr : i < rest.length / 2 := by
        simp only [List.length_cons] at h; omega
      have ih := registersOf_getD rest i hr
      have g1 : (b0 :: b1 :: rest).getD (2 * (i + 1)) 0 = rest.getD (2 * i) 0 := by
        have e1 : 2 * (i + 1) = 2 * i + 1 + 1 := by ring
        rw [e1, List.getD_cons_succ, List.getD_cons_succ]
      have g2 : (b0 :: b1 :: rest).getD (2 * (i + 1) + 1) 0 = rest.getD (2 * i + 1) 0 := by
        have e2 : 2 * (i + 1) + 1 = 2 * i + 1 + 1 + 1 := by ring
        rw [e2, List.getD_cons_succ, List.getD_cons_succ]
      simp only [registersOf, List.getD_cons_succ, ih, g1, g2]

/-- C10: for every `ModbusResponse`, `registers` has exactly
`⌊len(data)/2⌋` entries, the `i`-th being the big-endian 16-bit value of
payload bytes `2i` and `2i+1`; a trailing odd byte is ignored. -/
theorem modbus_registers_spec (r : ModbusResponse) :
    r.registers.length = r.data.length / 2
      ∧ ∀ i : Nat, i < r.data.length / 2 →
          r.registers.getD i 0 = 256 * r.data.getD (2 * i) 0 + r.data.getD (2 * i + 1) 0 :=
  ⟨registersOf_length r.data, fun i h => registersOf_getD r.data i h⟩

/-- C10, witness: decoding the 5-byte payload `[1, 2, 3, 4, 5]` (odd length,
trailing byte dropped). -/
theorem modbus_registers_spec_witness :
    (0 : Nat) < ([1, 2, 3, 4, 5] : List Nat).length / 2
      ∧ (ModbusResponse.mk 1 3 [1, 2, 3, 4, 5] false 0).registers.getD 0 0
          = 256 * ([1, 2, 3, 4, 5] : List Nat).getD (2 * 0) 0
              + ([1, 2, 3, 4, 5] : List Nat).getD (2 * 0 + 1) 0 :=
  ⟨by decide, (modbus_registers_spec ⟨1, 3, [1, 2, 3, 4, 5], false, 0⟩).2 0 (by decide)⟩

/-! ### C5 : set-point validation -/

/-- C5: voltages outside the declared specification range [0, 60] V are
rejected by `set_voltage` with result `False` and no bus operation, and
currents outside [0, 20] A are rejected by `set_current` the same way. -/
theorem cl500w_set_rejects_out_of_range :
    (∀ (env : BusEnv) (v : ℚ), v < 0 ∨ 60 < v →
        (CL500WDriver.setVoltage env v).ret = false
          ∧ (CL500WDriver.setVoltage env v).ops = [])
      ∧ ∀ (env : BusEnv) (c : ℚ), c < 0 ∨ 20 < c →
          (CL500WDriver.setCurrent env c).ret = false
            ∧ (CL500WDriver.setCurrent env c).ops = [] := by
  constructor
  · intro env v hv
    have hval : PowerSupplyBase.validateVoltage CL500WDriver.spec v = false := by
      simp only [PowerSupplyBase.validateVoltage, CL500WDriver.spec, decide_eq_false_iff_not,
        not_and_or, not_le]
      rcases hv with h | h
      · exact Or.inl h
      · exact Or.inr h
    simp [CL500WDriver.setVoltage, hval]
  · intro env c hc
    have hval : PowerSupplyBase.validateCurrent CL500WDriver.spec c = false := by
      simp only [PowerSupplyBase.validateCurrent, CL500WDriver.spec, decide_eq_false_iff_not,
        not_and_or, not_le]
      rcases hc with h | h
      · exact Or.inl h
      · exact Or.inr h
    simp [CL500WDriver.setCurrent, hval]

/-- C5, witness: 61 V and -1 A are rejected without any bus operation. -/
theorem cl500w_set_rejects_out_of_range_witness :
    ((CL500WDriver.setVoltage BusEnv.trivialOk 61).ret = false
        ∧ (CL500WDriver.setVoltage BusEnv.trivialOk 61).ops = [])
      ∧ (CL500WDriver.setCurrent BusEnv.trivialOk (-1)).ret = false
        ∧ (CL500WDriver.setCurrent BusEnv.trivialOk (-1)).ops = [] :=
  ⟨cl500w_set_rejects_out_of_range.1 BusEnv.trivialOk 61 (Or.inr (by norm_num)),
   cl500w_set_rejects_out_of_range.2 BusEnv.trivialOk (-1) (Or.inl (by norm_num))⟩

/-! ### C4 : transport retry -/

/-- A frame `verify` accepts is at least 3 bytes long. -/
theorem CRC16.length_ge_of_verify {l : List Nat} (h : CRC16.verify l = true) :
    ¬ l.length < 3 := by
  intro hlt
  unfold CRC16.verify at h
  rw [if_pos hlt] at h
  exact Bool.false_ne_true h

/-- C4: with `retry_count = 3`, a link that fails the first two attempts and
then delivers a CRC-correct non-error frame makes `_transact` write the
sealed request exactly 3 times, return the parsed successful response
(payload = frame minus address, function code and CRC), and leave the
consecutive-failure counter at 0 (with no port reset). -/
theorem transact_retry_spec (request resp : List Nat)
    (hv : CRC16.verify resp = true) (hfc : resp.getD 1 0 &&& 0x80 = 0) :
    ModbusRTU.transact request 3
        (fun i => if i < 2 then LinkOutcome.noResponse else LinkOutcome.recv resp) 0 =
      (⟨0, List.replicate 3 (CRC16.append request), 0⟩,
       some ⟨resp.getD 0 0, resp.getD 1 0, (resp.drop 2).dropLast.dropLast, false, 0⟩) := by
  have h3 := CRC16.length_ge_of_verify hv
  show ModbusRTU.transactAttempts (CRC16.append request)
      [LinkOutcome.noResponse, LinkOutcome.noResponse, LinkOutcome.recv resp] 0 [] 0 = _
  simp only [ModbusRTU.transactAttempts]
  norm_num
  simp only [List.getD, List.get?_eq_getElem?] at hfc
  simp only [hv, Bool.true_eq_false, if_false, if_neg h3, hfc, ne_eq,
    not_true_eq_false, not_false_eq_true, if_pos, if_neg]
  simp [List.replicate, List.getD]

/-- C4, witness: request `[1, 3, 0, 0, 0, 1]`, two failed attempts, then the
valid response frame `[1, 3, 2, 0, 5, 0x78, 0x47]`. -/
theorem transact_retry_spec_witness :
    CRC16.verify [1, 3, 2, 0, 5, 120, 71] = true
      ∧ ModbusRTU.transact [1, 3, 0, 0, 0, 1] 3
          (fun i => if i < 2 then LinkOutcome.noResponse
                    else LinkOutcome.recv [1, 3, 2, 0, 5, 120, 71]) 0 =
        (⟨0, List.replicate 3 (CRC16.append [1, 3, 0, 0, 0, 1]), 0⟩,
         some ⟨1, 3, [2, 0, 5], false, 0⟩) :=
  ⟨by decide, by
    have h := transact_retry_spec [1, 3, 0, 0, 0, 1] [1, 3, 2, 0, 5, 120, 71]
      (by decide) (by decide)
    simpa using h⟩

/-! ### C2 : first PID compute -/

/-- C2, counterexample: with kp=1, ki=0, kd=0, default configuration and a
fresh controller, the first `compute(10, 15)` does NOT return 5: the default
output rate limit (2.0 A/s over the neutral first-call dt of 1.0 s) caps the
step from the previous output 0 at 2. -/
theorem pid_first_compute_counterexample :
    ((PIDController.init 1 0 0 0 7).compute 10 15 0).1 ≠ 5 := by
  simp only [PIDController.compute, PIDController.init]
  norm_num

/-- C2, amended: with kp=1, ki=0, kd=0, non-reverse and the default
configuration, the first `compute(setpoint=10, measured=15)` produces the
proportional value 5, clamps it to the output bounds [0, 7], and then the
default output rate limit 2.0 A/s (times the neutral first-call dt of 1.0 s)
limits the returned value to previous output 0 + 2 = 2, at any wall-clock
time. -/
theorem pid_first_compute_amended (now : ℚ) :
    ((PIDController.init 1 0 0 0 7).compute 10 15 now).1 = 2 := by
  simp only [PIDController.compute, PIDController.init]
  norm_num

/-! ### C9 : output stays within bounds -/

/-- One `compute` keeps the returned output within `[outputMin, outputMax]`
whenever the stored previous output is within bounds. -/
theorem PIDController.compute_output_le (c : PIDController) (sp m now : ℚ)
    (hm : c.outputMin ≤ c.outputMax) (hlo : c.outputMin ≤ c.output)
    (hhi : c.output ≤ c.outputMax) :
    c.outputMin ≤ (c.compute sp m now).1 ∧ (c.compute sp m now).1 ≤ c.outputMax := by
  unfold PIDController.compute
  dsimp only
  set dt := (match c.lastTime with | none => (1:ℚ) | some t => max 0.01 (now - t)) with hdt
  set err := (if c.reverse then sp - m else m - sp) with herr
  set raw := c.kp * err
      + c.ki * max (-(c.outputMax / max c.ki 0.001))
          (min (c.outputMax / max c.ki 0.001) (c.integral + err * dt))
      + c.kd * (c.derivativeFilter * (if dt > 0 then (err - c.lastError) / dt else 0)
          + (1 - c.derivativeFilter) * c.lastDerivative) with hraw
  have hcl : c.outputMin ≤ max c.outputMin (min c.outputMax raw)
      ∧ max c.outputMin (min c.outputMax raw) ≤ c.outputMax :=
    ⟨le_max_left _ _, max_le hm (min_le_left _ _)⟩
  set cl := max c.outputMin (min c.outputMax raw) with hcl2
  split_ifs with h1 h2 h3
  · have hmc : 0 < c.outputRateLimit * dt := mul_pos h1.1 h1.2
    have habs : |cl - c.output| = cl - c.output := abs_of_pos h3
    rw [habs] at h2
    constructor <;> nlinarith [hcl.1, hcl.2]
  · have hmc : 0 < c.outputRateLimit * dt := mul_pos h1.1 h1.2
    have habs : |cl - c.output| = -(cl - c.output) := abs_of_nonpos (by linarith [not_lt.mp h3])
    rw [habs] at h2
    constructor <;> nlinarith [hcl.1, hcl.2]
  · exact hcl
  · exact hcl

/-- `compute` never changes the configured bounds, and stores the value it
returns as the new previous output. -/
theorem PIDController.compute_cfg (c : PIDController) (sp m now : ℚ) :
    (c.compute sp m now).2.outputMin = c.outputMin
      ∧ (c.compute sp m now).2.outputMax = c.outputMax
      ∧ (c.compute sp m now).2.output = (c.compute sp m now).1 :=
  ⟨rfl, rfl, rfl⟩

/-- Bounds are preserved along any sequence of `compute` calls. -/
theorem PIDController.run_bounded : ∀ (inputs : List (ℚ × ℚ × ℚ)) (c : PIDController),
    c.outputMin ≤ c.outputMax → c.outputMin ≤ c.output → c.output ≤ c.outputMax →
    ((PIDController.run c inputs).outputMin = c.outputMin
        ∧ (PIDController.run c inputs).outputMax = c.outputMax
        ∧ c.outputMin ≤ (PIDController.run c inputs).output
        ∧ (PIDController.run c inputs).output ≤ c.outputMax)
      ∧ ∀ y ∈ PIDController.outputsFrom c inputs, c.outputMin ≤ y ∧ y ≤ c.outputMax
  | [], c, _, hlo, hhi => by
      exact ⟨⟨rfl, rfl, hlo, hhi⟩, by intro y hy; simp [PIDController.outputsFrom] at hy⟩
  | (sp, m, now) :: rest, c, hm, hlo, hhi => by
      obtain ⟨hout1, hout2⟩ := PIDController.compute_output_le c sp m now hm hlo hhi
      obtain ⟨e1, e2, e3⟩ := PIDController.compute_cfg c sp m now
      have ih := PIDController.run_bounded rest (c.compute sp m now).2
        (by rw [e1, e2]; exact hm) (by rw [e1, e3]; exact hout1) (by rw [e2, e3]; exact hout2)
      constructor
      · have hfin := ih.1
        rw [e1, e2] at hfin
        exact ⟨hfin.1, hfin.2.1, by simpa [PIDController.run] using hfin.2.2.1,
          by simpa [PIDController.run] using hfin.2.2.2⟩
      · intro y hy
        simp only [PIDController.outputsFrom, List.mem_cons] at hy
        rcases hy with h | h
        · exact ⟨h ▸ hout1, h ▸ hout2⟩
        · have hmem := ih.2 y h
          rw [e1, e2] at hmem
          exact hmem

/-- C9: if `output_min ≤ 0 ≤ output_max` and `output_rate_limit ≥ 0`, then
starting from `reset()` every value returned by `compute`, and the stored
last output, lies within `[output_min, output_max]`, for every sequence of
calls with arbitrary setpoints, measurements and times. -/
theorem pid_output_invariant (c0 : PIDController) (inputs : List (ℚ × ℚ × ℚ))
    (hmin : c0.outputMin ≤ 0) (hmax : 0 ≤ c0.outputMax)
    (hrate : 0 ≤ c0.outputRateLimit) :
    (c0.outputMin ≤ (PIDController.run c0.reset inputs).output
        ∧ (PIDController.run c0.reset inputs).output ≤ c0.outputMax)
      ∧ ∀ y ∈ PIDController.outputsFrom c0.reset inputs,
          c0.outputMin ≤ y ∧ y ≤ c0.outputMax := by
  have h := PIDController.run_bounded inputs c0.reset (le_trans hmin hmax) hmin hmax
  exact ⟨⟨h.1.2.2.1, h.1.2.2.2⟩, h.2⟩

/-- C9, witness: the default controller on the two ticks
`(10, 15, 0), (10, 14, 1)`. -/
theorem pid_output_invariant_witness :
    PIDController.default.outputMin ≤ 0
      ∧ (0 : ℚ) ≤ PIDController.default.outputMax
      ∧ (0 : ℚ) ≤ PIDController.default.outputRateLimit
      ∧ ((PIDController.default.outputMin
              ≤ (PIDController.run PIDController.default.reset [(10, 15, 0), (10, 14, 1)]).output
            ∧ (PIDController.run PIDController.default.reset [(10, 15, 0), (10, 14, 1)]).output
              ≤ PIDController.default.outputMax)
          ∧ ∀ y ∈ PIDController.outputsFrom PIDController.default.reset [(10, 15, 0), (10, 14, 1)],
              PIDController.default.outputMin ≤ y ∧ y ≤ PIDController.default.outputMax) :=
  ⟨by norm_num [PIDController.default, PIDController.init],
   by norm_num [PIDController.default, PIDController.init],
   by norm_num [PIDController.default, PIDController.init],
   pid_output_invariant PIDController.default [(10, 15, 0), (10, 14, 1)]
     (by norm_num [PIDController.default, PIDController.init])
     (by norm_num [PIDController.default, PIDController.init])
     (by norm_num [PIDController.default, PIDController.init])⟩

/-! ### C7 : two-point Cohen-Coon analysis -/

/-- C7: when the analysis path runs (≥10 samples, initial temperature
latched, observed change ≥ 0.5) and both the 28.3% and 63.2% crossings are
found at times `a` and `b`, `_analyze_response` sets
`time_constant = max(5, 1.5*(b-a))` and `dead_time = max(1, b - time_constant)`,
clamps the Cohen-Coon gains into `0.1 ≤ kp ≤ 15`, `0.001 ≤ ki ≤ 1`,
`0 ≤ kd ≤ 15`, and ends in state `done`. -/
theorem autotune_two_point_analysis (st : PIDAutoTuner) (T0 dT a b : ℚ)
    (h10 : ¬ st.timeData.length < 10)
    (hT0 : st.initialTemp = some T0)
    (hdT : dT = (if st.heating then st.tempData.getD (st.tempData.length - 1) 0 - T0
                 else T0 - st.tempData.getD (st.tempData.length - 1) 0))
    (hge : ¬ dT < 0.5)
    (h283 : firstCrossing st.heating
        (if st.heating then T0 + dT * 0.283 else T0 - dT * 0.283)
        st.timeData st.tempData = some a)
    (h632 : firstCrossing st.heating
        (if st.heating then T0 + dT * 0.632 else T0 - dT * 0.632)
        st.timeData st.tempData = some b) :
    st.analyzeResponse.timeConstant = max 5.0 (1.5 * (b - a))
      ∧ st.analyzeResponse.deadTime = max 1.0 (b - max 5.0 (1.5 * (b - a)))
      ∧ 0.1 ≤ st.analyzeResponse.kp ∧ st.analyzeResponse.kp ≤ 15
      ∧ 0.001 ≤ st.analyzeResponse.ki ∧ st.analyzeResponse.ki ≤ 1
      ∧ 0 ≤ st.analyzeResponse.kd ∧ st.analyzeResponse.kd ≤ 15
      ∧ st.analyzeResponse.state = TunerState.done := by
  have hnone : ¬ st.initialTemp = none := by rw [hT0]; simp
  unfold PIDAutoTuner.analyzeResponse
  rw [if_neg (not_or.mpr ⟨h10, hnone⟩)]
  simp only [hT0, Option.getD_some]
  rw [← hdT, if_neg hge, h283, h632]
  refine ⟨rfl, rfl, le_max_left _ _, max_le (by norm_num) (min_le_left _ _),
    le_max_left _ _, max_le (by norm_num) (min_le_left _ _),
    le_max_left _ _, max_le (by norm_num) (min_le_left _ _), rfl⟩

/-- C7, witness: the 20-sample cooling session `tuner20` (initial 20 °C,
final 13 °C, ΔT = 7): crossings at t=6 and t=13, analysis ends `done`. -/
theorem autotune_two_point_analysis_witness :
    (¬ tuner20.timeData.length < 10)
      ∧ tuner20.initialTemp = some 20
      ∧ (¬ (7 : ℚ) < 0.5)
      ∧ tuner20.analyzeResponse.timeConstant = max 5.0 (1.5 * ((13 : ℚ) - 6))
      ∧ tuner20.analyzeResponse.state = TunerState.done := by
  have h10 : ¬ tuner20.timeData.length < 10 := by norm_num [tuner20, PIDAutoTuner.init]
  have hT0 : tuner20.initialTemp = some 20 := rfl
  have hdT : (7 : ℚ) =
      (if tuner20.heating then tuner20.tempData.getD (tuner20.tempData.length - 1) 0 - 20
       else 20 - tuner20.tempData.getD (tuner20.tempData.length - 1) 0) := by
    norm_num [tuner20, PIDAutoTuner.init]
  have hge : ¬ (7 : ℚ) < 0.5 := by norm_num
  have h283 : firstCrossing tuner20.heating
      (if tuner20.heating then 20 + 7 * 0.283 else 20 - 7 * 0.283)
      tuner20.timeData tuner20.tempData = some 6 := by
    norm_num [firstCrossing, tuner20, PIDAutoTuner.init]
  have h632 : firstCrossing tuner20.heating
      (if tuner20.heating then 20 + 7 * 0.632 else 20 - 7 * 0.632)
      tuner20.timeData tuner20.tempData = some 13 := by
    norm_num [firstCrossing, tuner20, PIDAutoTuner.init]
  have h := autotune_two_point_analysis tuner20 20 7 6 13 h10 hT0 hdT hge h283 h632
  exact ⟨h10, hT0, hge, h.1, h.2.2.2.2.2.2.2.2⟩

/-! ### C6 : auto-tune global timeout -/

/-- `_use_fallback_params` always leaves the session in state `done`
(empirical gains or conservative defaults). -/
theorem PIDAutoTuner.useFallbackParams_state (st : PIDAutoTuner) (m : ℚ) :
    (st.useFallbackParams m).state = TunerState.done := by
  unfold PIDAutoTuner.useFallbackParams
  cases st.initialTemp <;> dsimp only <;> split_ifs <;> rfl

/-- On the timeout path with at most 20 collected samples, `step` marks the
session failed and immediately applies the fallback. -/
theorem PIDAutoTuner.step_timeout_le20 (st : PIDAutoTuner) (m now : ℚ)
    (htime : now - st.startTime > st.maxTime) (hlen : ¬ st.timeData.length > 20) :
    st.step m now = (0, PIDAutoTuner.useFallbackParams
        { st with state := TunerState.failed, message := TunerMsg.timeout st.maxTime } m) := by
  unfold PIDAutoTuner.step
  dsimp only
  rw [if_pos htime, if_neg hlen]

/-- C6, amended: when the global timeout is reached during `step`, analysis
is attempted only when STRICTLY MORE than 20 samples were collected (at
least 21); with at most 20 samples the state is set to `failed` and the
fallback runs immediately; the fallback always ends in state `done`, so the
timeout path never leaves the session in state `failed`. -/
theorem autotune_timeout_amended (st : PIDAutoTuner) (m now : ℚ)
    (htime : now - st.startTime > st.maxTime) :
    (st.step m now).2.state = TunerState.done
      ∧ (st.timeData.length ≤ 20 →
          (st.step m now).2 =
            PIDAutoTuner.useFallbackParams
              { st with state := TunerState.failed, message := TunerMsg.timeout st.maxTime } m)
      ∧ (¬ st.timeData.length ≤ 20 → st.analyzeResponse.state = TunerState.done →
          (st.step m now).2 = st.analyzeResponse) := by
  unfold PIDAutoTuner.step
  dsimp only
  rw [if_pos htime]
  by_cases hlen : st.timeData.length > 20
  · rw [if_pos hlen]
    by_cases hdone : st.analyzeResponse.state = TunerState.done
    · rw [if_pos hdone]
      exact ⟨hdone, fun h => absurd hlen (by omega), fun _ _ => rfl⟩
    · rw [if_neg hdone]
      exact ⟨PIDAutoTuner.useFallbackParams_state _ _,
        fun h => absurd hlen (by omega), fun _ hd => absurd hd hdone⟩
  · rw [if_neg hlen]
    exact ⟨PIDAutoTuner.useFallbackParams_state _ _, fun _ => rfl,
      fun h => absurd (by omega) h⟩

/-- C6, witness: `tuner20` at measured 13 °C, wall-clock 301 s (timeout
exceeded, 20 ≤ 20 samples): the step result is the fallback applied to the
failed-marked state, and its state is `done`. -/
theorem autotune_timeout_amended_witness :
    ((301 : ℚ) - tuner20.startTime > tuner20.maxTime)
      ∧ tuner20.timeData.length ≤ 20
      ∧ (tuner20.step 13 301).2.state = TunerState.done
      ∧ (tuner20.step 13 301).2 =
          PIDAutoTuner.useFallbackParams
            { tuner20 with state := TunerState.failed,
                           message := TunerMsg.timeout tuner20.maxTime } 13 := by
  have htime : (301 : ℚ) - tuner20.startTime > tuner20.maxTime := by
    norm_num [tuner20, PIDAutoTuner.init]
  have hlen : tuner20.timeData.length ≤ 20 := by norm_num [tuner20, PIDAutoTuner.init]
  have h := autotune_timeout_amended tuner20 13 301 htime
  exact ⟨htime, hlen, h.1, h.2.1 hlen⟩

/-- C6, counterexample: `tuner20` has exactly 20 samples — "at least 20" per
the claim — yet at timeout `step` does NOT attempt analysis: it returns the
fallback gains (kp = 5) although `_analyze_response` on the same data would
have succeeded with kp = 1159/300; the code requires strictly more than 20
samples. -/
theorem autotune_timeout_20_samples_counterexample :
    tuner20.timeData.length = 20
      ∧ (tuner20.step 13 301).2.kp = 5
      ∧ tuner20.analyzeResponse.state = TunerState.done
      ∧ tuner20.analyzeResponse.kp = 1159 / 300
      ∧ ((1159 : ℚ) / 300 ≠ 5) := by
  have hstep := PIDAutoTuner.step_timeout_le20 tuner20 13 301
    (by norm_num [tuner20, PIDAutoTuner.init])
    (by norm_num [tuner20, PIDAutoTuner.init])
  have hne : ¬(([1, 2, 3, 4, 5, 6, 7, 8, 9, 10, 11, 12, 13, 14, 15, 16, 17, 18, 19, 20] :
      List ℚ) = []) := by simp
  have hfb : (PIDAutoTuner.useFallbackParams
      { tuner20 with state := TunerState.failed,
                     message := TunerMsg.timeout tuner20.maxTime } 13).kp = 5 := by
    unfold PIDAutoTuner.useFallbackParams
    norm_num [tuner20, PIDAutoTuner.init, hne, max_def, min_def, abs_of_pos]
  have hana : tuner20.analyzeResponse.state = TunerState.done
      ∧ tuner20.analyzeResponse.kp = 1159 / 300 := by
    constructor <;>
      norm_num [PIDAutoTuner.analyzeResponse, firstCrossing, tuner20, PIDAutoTuner.init,
        max_def, min_def, Option.some_ne_none]
  refine ⟨by norm_num [tuner20, PIDAutoTuner.init], ?_, hana.1, hana.2, by norm_num⟩
  rw [hstep]
  exact hfb

/-! ### C8 : get_status under individual read failures -/

/-- A connected `_read_registers` call performs exactly its one bus read,
whatever the outcome. -/
theorem CL500WDriver.readRegisters_ops (env : BusEnv) (hc : env.connected = true)
    (s c : Nat) : (CL500WDriver.readRegisters env s c).ops = [BusOp.readReg s c] := by
  unfold CL500WDriver.readRegisters
  rw [hc]
  simp only [Bool.true_eq_false, if_false]
  cases env.readResult s c <;> rfl

/-- A connected `_read_registers` call whose transaction fails notifies the
communication-timeout error. -/
theorem CL500WDriver.readRegisters_errs_fail (env : BusEnv) (hc : env.connected = true)
    (s c : Nat) (hf : env.readResult s c = ReadOutcome.fail) :
    (CL500WDriver.readRegisters env s c).errs = [DriverErr.commTimeout] := by
  unfold CL500WDriver.readRegisters
  rw [hc, hf]
  simp

/-- C8, counterexample: with the batched real-time read failing and every
other read succeeding, `get_status` leaves the returned status's error text
EMPTY — the failure is only pushed to the error callbacks — while the three
remaining reads are still performed. -/
theorem getstatus_error_text_counterexample :
    (CL500WDriver.readRegisters BusEnv.firstReadFails 1024 5).ret = none
      ∧ (CL500WDriver.getStatus BusEnv.firstReadFails).ret.errorMessage = ""
      ∧ (CL500WDriver.getStatus BusEnv.firstReadFails).errs = [DriverErr.commTimeout]
      ∧ (CL500WDriver.getStatus BusEnv.firstReadFails).ops =
          [BusOp.readReg 1024 5, BusOp.readReg 1282 1,
           BusOp.readReg 1280 1, BusOp.readReg 1281 1] :=
  ⟨rfl, rfl, rfl, rfl⟩

/-- C8, amended: when the driver is connected, an individual register-read
failure during `get_status` is reported through the registered error
callbacks (`_notify_error`), NOT recorded into the returned status's error
text (which stays empty: the `except` branch that would set it is not
reached by a failed read); all four reads are always performed, so later
fields are still populated. -/
theorem getstatus_failures_dont_abort (env : BusEnv) (hc : env.connected = true) :
    (CL500WDriver.getStatus env).ops =
        [BusOp.readReg 1024 5, BusOp.readReg 1282 1,
         BusOp.readReg 1280 1, BusOp.readReg 1281 1]
      ∧ (CL500WDriver.getStatus env).ret.errorMessage = ""
      ∧ (env.readResult 1024 5 = ReadOutcome.fail →
          DriverErr.commTimeout ∈ (CL500WDriver.getStatus env).errs) := by
  refine ⟨?_, ?_, ?_⟩
  · unfold CL500WDriver.getStatus
    rw [hc]
    simp only [Bool.true_eq_false, if_false]
    rw [CL500WDriver.readRegisters_ops env hc 1024 5,
      CL500WDriver.readRegisters_ops env hc 1282 1,
      CL500WDriver.readRegisters_ops env hc 1280 1,
      CL500WDriver.readRegisters_ops env hc 1281 1]
    rfl
  · unfold CL500WDriver.getStatus
    rw [hc]
    simp only [Bool.true_eq_false, if_false]
    rcases h1 : (CL500WDriver.readRegisters env 1024 5).ret with _ | r1 <;>
      rcases h2 : (CL500WDriver.readRegisters env 1282 1).ret with _ | r2 <;>
        rcases h3 : (CL500WDriver.readRegisters env 1280 1).ret with _ | r3 <;>
          rcases h4 : (CL500WDriver.readRegisters env 1281 1).ret with _ | r4 <;>
            dsimp only <;> split_ifs <;> rfl
  · intro hf
    unfold CL500WDriver.getStatus
    rw [hc]
    simp only [Bool.true_eq_false, if_false]
    rw [CL500WDriver.readRegisters_errs_fail env hc 1024 5 hf]
    simp

/-- C8, witness: the amended statement at the environment whose first read
fails. -/
theorem getstatus_failures_dont_abort_witness :
    BusEnv.firstReadFails.connected = true
      ∧ BusEnv.firstReadFails.readResult 1024 5 = ReadOutcome.fail
      ∧ (CL500WDriver.getStatus BusEnv.firstReadFails).ops =
          [BusOp.readReg 1024 5, BusOp.readReg 1282 1,
           BusOp.readReg 1280 1, BusOp.readReg 1281 1]
      ∧ DriverErr.commTimeout ∈ (CL500WDriver.getStatus BusEnv.firstReadFails).errs :=
  ⟨rfl, rfl, (getstatus_failures_dont_abort BusEnv.firstReadFails rfl).1,
   (getstatus_failures_dont_abort BusEnv.firstReadFails rfl).2.2 rfl⟩

/-! ### C1 : safety stop and recovery hysteresis -/

/-- A recovery-timer tick whose reading is absent or not strictly below
`safety_temp - 2` leaves the worker state untouched. -/
theorem HardwareWorker.checkSafetyRecovery_skip (w : HardwareWorker) (x : Option ℚ)
    (hx : ∀ v, x = some v → w.safetyTemp - 2 ≤ v) :
    w.checkSafetyRecovery x = w := by
  cases x with
  | none => rfl
  | some v =>
    unfold HardwareWorker.checkSafetyRecovery
    dsimp only
    rw [if_neg (not_lt.mpr (hx v rfl))]

/-- A whole sequence of such recovery ticks leaves the worker state
untouched. -/
theorem HardwareWorker.recoveryFold_id : ∀ (ms : List (Option ℚ)) (w : HardwareWorker),
    (∀ x ∈ ms, ∀ v, x = some v → w.safetyTemp - 2 ≤ v) →
    ms.foldl HardwareWorker.checkSafetyRecovery w = w
  | [], _, _ => rfl
  | x :: rest, w, h => by
      rw [List.foldl_cons,
        HardwareWorker.checkSafetyRecovery_skip w x (h x (List.mem_cons_self x rest))]
      exact HardwareWorker.recoveryFold_id rest w
        (fun y hy v hv => h y (List.mem_cons_of_mem x hy) v hv)

/-- A control tick observing `measured > safety_temp` while enabled and
connected is exactly `_safety_stop`: current 0, timers and flags cleared,
recovery timer started. -/
theorem HardwareWorker.controlLoop_safety (w : HardwareWorker) (m now : ℚ)
    (hen : w.pidEnabled = true) (hconn : w.powerConnected = true)
    (hm : w.safetyTemp < m) :
    w.controlLoop (some m) now =
      { w with safetyTriggered := true, safetyStopCount := w.safetyStopCount + 1,
               pidEnabled := false, autoTuning := false, controlTimerRunning := false,
               lastSetCurrent := 0, recoveryTimerRunning := true } := by
  unfold HardwareWorker.controlLoop
  rw [hen]
  simp only [Bool.true_eq_false, if_false]
  rw [if_pos hm]
  unfold HardwareWorker.safetyStop HardwareWorker.sendCurrent
  dsimp only
  rw [if_pos hconn]

/-- C1: whenever control (PID or auto-tune) is enabled and a tick observes a
fused temperature strictly above `safety_temp`, that same tick drives the
commanded current to 0, stops the control timer and disables control and
auto-tuning, starting the recovery timer; and as long as every later
recovery reading is absent or not strictly below `safety_temp - 2.0`, no
restart is scheduled and control stays stopped. -/
theorem safety_stop_and_hold (w : HardwareWorker) (m now : ℚ) (ms : List (Option ℚ))
    (hen : w.pidEnabled = true) (hconn : w.powerConnected = true)
    (hm : w.safetyTemp < m) (hrp : w.restartPending = false)
    (hms : ∀ x ∈ ms, ∀ v, x = some v → w.safetyTemp - 2 ≤ v) :
    (w.controlLoop (some m) now).lastSetCurrent = 0
      ∧ (w.controlLoop (some m) now).controlTimerRunning = false
      ∧ (w.controlLoop (some m) now).pidEnabled = false
      ∧ (w.controlLoop (some m) now).autoTuning = false
      ∧ (w.controlLoop (some m) now).recoveryTimerRunning = true
      ∧ (ms.foldl HardwareWorker.checkSafetyRecovery
            (w.controlLoop (some m) now)).restartPending = false
      ∧ (ms.foldl HardwareWorker.checkSafetyRecovery
            (w.controlLoop (some m) now)).pidEnabled = false
      ∧ (ms.foldl HardwareWorker.checkSafetyRecovery
            (w.controlLoop (some m) now)).controlTimerRunning = false := by
  rw [HardwareWorker.controlLoop_safety w m now hen hconn hm]
  rw [HardwareWorker.recoveryFold_id ms
    { w with safetyTriggered := true, safetyStopCount := w.safetyStopCount + 1,
             pidEnabled := false, autoTuning := false, controlTimerRunning := false,
             lastSetCurrent := 0, recoveryTimerRunning := true }
    (fun x hx v hv => hms x hx v hv)]
  exact ⟨rfl, rfl, rfl, rfl, rfl, hrp, rfl, rfl⟩

/-- C1, witness: `workerRunning` (safety limit 30 °C) observing 31 °C, then
recovery readings 29 °C, none, 28.5 °C — all at or above 28 °C, so control
stays stopped and no restart is scheduled. -/
theorem safety_stop_and_hold_witness :
    workerRunning.pidEnabled = true
      ∧ workerRunning.powerConnected = true
      ∧ workerRunning.safetyTemp < 31
      ∧ (workerRunning.controlLoop (some 31) 0).lastSetCurrent = 0
      ∧ (workerRunning.controlLoop (some 31) 0).controlTimerRunning = false
      ∧ (workerRunning.controlLoop (some 31) 0).pidEnabled = false
      ∧ (workerRunning.controlLoop (some 31) 0).recoveryTimerRunning = true
      ∧ ([some 29, none, some (57 / 2)].foldl HardwareWorker.checkSafetyRecovery
            (workerRunning.controlLoop (some 31) 0)).restartPending = false := by
  have hms : ∀ x ∈ ([some 29, none, some (57 / 2)] : List (Option ℚ)),
      ∀ v, x = some v → workerRunning.safetyTemp - 2 ≤ v := by
    intro x hx v hv
    simp only [List.mem_cons, List.not_mem_nil, or_false] at hx
    rcases hx with h | h | h <;> subst h
    · cases hv
      norm_num [workerRunning]
    · simp at hv
    · cases hv
      norm_num [workerRunning]
  have h := safety_stop_and_hold workerRunning 31 0 [some 29, none, some (57 / 2)]
    rfl rfl (by norm_num [workerRunning]) rfl hms
  exact ⟨rfl, rfl, by norm_num [workerRunning], h.1, h.2.1, h.2.2.1, h.2.2.2.2.1,
    h.2.2.2.2.2.1⟩
